import Mathlib

/-!
Verification development for the live speaking-exam session orchestrator
(`src/modules/speaking/speaking.gateway.ts`, `gemini.service.ts`,
`speaking.service.ts`).

The TypeScript gateway is shallowly embedded as pure Lean functions.
Each WebSocket/timer handler becomes a function from the gateway's
in-memory state (the `sessions` map and the `idleTimeouts` map) plus the
handler's inputs (payload fields, wall-clock milliseconds, and the
outcomes of external calls: database rows, Gemini API results) to the
updated state together with an ordered list of observable side effects
(socket emits, transcript saves, database status updates, Gemini
open/send/close calls, timer scheduling).  `setTimeout` handles are
modelled as `Option Nat` fields (the stored handle) and scheduled
delays appear as `scheduleTimer` effects; each timer callback body is
embedded as its own function taking the state at firing time plus the
values the JS closure captured.  Handlers are treated as atomic steps,
matching the single-threaded event-loop serialization assumed by the
design.  Wall-clock times are integer milliseconds; `Math.floor` of a
millisecond difference over 1000 is `Int.fdiv _ 1000`.
-/

namespace Speaking

/-- Session status strings used by the gateway and the database
(`'active' | 'paused' | 'grace_period' | 'interrupted' | 'completed' |
'cancelled'`). -/
inductive SessStatus where
  | active
  | paused
  | gracePeriod
  | interrupted
  | completed
  | cancelled
deriving DecidableEq, Repr

/-- One entry of `conversationHistory`: `{speaker, text, timestamp}`. -/
structure ConvMsg where
  speaker : String
  text : String
  timestamp : String
deriving DecidableEq, Repr

/-- Purposes of the gateway's `setTimeout` timers. -/
inductive TimerPurpose where
  /-- `setupTimerWarnings` countdown warning at a threshold (seconds). -/
  | warning (threshold : Int)
  /-- `setupAutoEnd` session auto-end timer. -/
  | autoEnd
  /-- `handleDisconnect` 5-second grace-period timer (`disconnectTimer`). -/
  | grace
  /-- `handlePauseSession` 60-second Gemini close timer
  (`pauseGeminiCloseTimer`). -/
  | pauseExpiry
  /-- `handleAudioChunk` 60-second idle timeout. -/
  | idle
deriving DecidableEq, Repr

/-- The in-memory `SessionContext` of the gateway (one per live exam
attempt, keyed by socket client id in the `sessions` map). -/
structure SessionContext where
  clientId : String
  sessionId : String
  studentId : String
  teilNumber : Nat
  conversationHistory : List ConvMsg
  status : SessStatus
  /-- `startTime` in epoch milliseconds. -/
  startTime : Int
  elapsedSeconds : Int
  /-- `timeLimit` in seconds; `null` when the session is untimed. -/
  timeLimit : Option Int
  /-- `expectedEndTime` in epoch milliseconds. -/
  expectedEndTime : Option Int
  /-- Stored `setTimeout` handle of the grace-period timer. -/
  disconnectTimer : Option Nat
  pauseTimer : Option Nat
  /-- Stored `setTimeout` handle of the 60-second pause close timer. -/
  pauseGeminiCloseTimer : Option Nat
  lastAudioTimestamp : Int
  pausePending : Bool
  geminiConnectionAttempts : Nat
  lastGeminiError : Option String
  /-- Rate-limit window: recent chunk arrival times (epoch ms). -/
  chunkTimestamps : List Int
  /-- Pending warning/auto-end timer handles (tracked by purpose). -/
  timerHandles : List TimerPurpose
deriving DecidableEq, Repr

/-- `Map.get`: first entry with the given key. -/
def mapGet {α : Type} : List (String × α) → String → Option α
  | [], _ => none
  | e :: rest, k => if e.1 = k then some e.2 else mapGet rest k

/-- `Map.delete`: drop every entry with the given key. -/
def mapDelete {α : Type} (m : List (String × α)) (k : String) :
    List (String × α) :=
  m.filter (fun e => e.1 ≠ k)

/-- `Map.set`: replace-or-insert.  The entry ends up at the back; under
the key-uniqueness invariant iteration order is immaterial to every
lookup the gateway performs. -/
def mapSet {α : Type} (m : List (String × α)) (k : String) (v : α) :
    List (String × α) :=
  mapDelete m k ++ [(k, v)]

/-- The gateway's mutable state: the `sessions` map (clientId →
SessionContext) and the set of client ids with a pending idle timeout
(`idleTimeouts` keys). -/
structure GatewayState where
  sessions : List (String × SessionContext)
  idleTimeouts : List String
deriving DecidableEq, Repr

/-- Observable side effects of a handler run, in program order. -/
inductive Effect where
  /-- `client.emit('connection_error', {code, ...})`. -/
  | emitConnError (clientId : String) (code : Nat)
  /-- `client.emit('error' | 'gemini_error', {code: <string>, ...})`. -/
  | emitErr (clientId : String) (code : String)
  /-- `client.emit('session_ready', {status})` with `status` `"ready"`
  or `"reconnected"`. -/
  | emitSessionReady (clientId : String) (status : String)
  /-- Any other `client.emit(event, ...)`. -/
  | emitEvent (clientId : String) (event : String)
  /-- `client.disconnect(true)`. -/
  | disconnectClient (clientId : String)
  /-- `speakingService.saveConversationHistory(sessionId, history)` /
  `saveTranscript`. -/
  | saveTranscript (sessionId : String) (history : List ConvMsg)
  /-- `exam_sessions` update of `status` (and `elapsed_time` when the
  update writes one). -/
  | persistStatus (sessionId : String) (status : SessStatus)
      (elapsed : Option Int)
  /-- `geminiService.createLiveSession(sessionId, ...)`. -/
  | geminiCreate (sessionId : String)
  /-- `geminiService.sendAudioChunk(sessionId, ...)` invoked. -/
  | geminiSend (sessionId : String)
  /-- `geminiService.closeLiveSession(sessionId)`. -/
  | geminiClose (sessionId : String)
  /-- `setTimeout(..., delayMs)` scheduled for the given purpose. -/
  | scheduleTimer (purpose : TimerPurpose) (delayMs : Int)
  /-- `clearTimeout` of a pending timer of the given purpose. -/
  | cancelTimer (purpose : TimerPurpose)
deriving DecidableEq, Repr

/-- `getElapsedSeconds`: snapshot for non-active states, live
`Math.floor((Date.now() - startTime) / 1000)` while active. -/
def getElapsedSeconds (ctx : SessionContext) (nowMs : Int) : Int :=
  if ctx.status ≠ .active then ctx.elapsedSeconds
  else Int.fdiv (nowMs - ctx.startTime) 1000

/-- `MAX_AUDIO_CHUNK_SIZE = 100 * 1024` (Base64 length ceiling). -/
def MAX_AUDIO_CHUNK_SIZE : Nat := 100 * 1024

/-- Decision-relevant fields of the `audio_chunk` payload: whether
`payload.data` is a (truthy) string, whether `isValidBase64` accepts
it, and its length.  The Base64 round-trip check itself runs in Node
and only its verdict reaches the handler's control flow. -/
structure AudioPayload where
  dataPresent : Bool
  validB64 : Bool
  dataLen : Nat
deriving DecidableEq, Repr

/-- `handleAudioChunk`.  External outcomes supplied as inputs:
`geminiActive` = `geminiService.isSessionActive(sessionId)` and
`sendOk` = whether `sendAudioChunk` returned without throwing. -/
def handleAudioChunk (st : GatewayState) (cid : String)
    (p : AudioPayload) (nowMs : Int) (geminiActive : Bool)
    (sendOk : Bool) : GatewayState × List Effect :=
  match mapGet st.sessions cid with
  | none => (st, [Effect.emitErr cid "SESSION_NOT_FOUND"])
  | some ctx =>
    if ctx.status ≠ .active then
      (st, [Effect.emitErr cid "SESSION_NOT_ACTIVE"])
    else
      -- refresh lastAudioTimestamp; clear any pending idle timeout
      let ctx1 := { ctx with lastAudioTimestamp := nowMs }
      let st1 : GatewayState :=
        { sessions := mapSet st.sessions cid ctx1,
          idleTimeouts := st.idleTimeouts.filter (fun c => c ≠ cid) }
      if ¬ p.dataPresent then
        (st1, [Effect.emitErr cid "INVALID_AUDIO_FORMAT"])
      else if ¬ p.validB64 then
        (st1, [Effect.emitErr cid "INVALID_BASE64"])
      else if p.dataLen > MAX_AUDIO_CHUNK_SIZE then
        (st1, [Effect.emitErr cid "AUDIO_CHUNK_TOO_LARGE"])
      else
        let recent := ctx1.chunkTimestamps.filter
          (fun t => nowMs - t < 1000)
        if recent.length ≥ 50 then
          (st1, [Effect.emitErr cid "RATE_LIMIT_EXCEEDED"])
        else
          let ts1 := ctx1.chunkTimestamps ++ [nowMs]
          -- keep only the last 100 timestamps (`slice(-100)`)
          let ts2 := if ts1.length > 100 then
            ts1.drop (ts1.length - 100) else ts1
          let ctx2 := { ctx1 with chunkTimestamps := ts2 }
          let st2 : GatewayState :=
            { st1 with sessions := mapSet st1.sessions cid ctx2 }
          if ¬ geminiActive then
            (st2, [Effect.emitErr cid "GEMINI_SESSION_NOT_FOUND"])
          else if sendOk then
            ({ st2 with idleTimeouts := st2.idleTimeouts ++ [cid] },
             [Effect.geminiSend ctx2.sessionId,
              Effect.scheduleTimer .idle 60000])
          else
            -- sendAudioChunk threw: mark interrupted, flush, persist
            let ctx3 := { ctx2 with
              lastGeminiError := some "AUDIO_FORWARD_FAILED",
              status := .interrupted }
            let st3 : GatewayState :=
              { st2 with sessions := mapSet st2.sessions cid ctx3 }
            let flush := if ctx3.conversationHistory ≠ [] then
              [Effect.saveTranscript ctx3.sessionId
                ctx3.conversationHistory] else []
            (st3,
             [Effect.geminiSend ctx3.sessionId,
              Effect.emitErr cid "AUDIO_FORWARD_FAILED"] ++ flush ++
             [Effect.persistStatus ctx3.sessionId .interrupted
               (some (getElapsedSeconds ctx3 nowMs))])

/-- `handleDisconnect`.  `graceTid` is the `setTimeout` handle the
runtime allocates for the 5-second grace timer. -/
def handleDisconnect (st : GatewayState) (cid : String) (nowMs : Int)
    (graceTid : Nat) : GatewayState × List Effect :=
  match mapGet st.sessions cid with
  | none => (st, [])
  | some ctx =>
    -- clearTimeout on disconnect/pause timers and warning handles,
    -- clear pauseGeminiCloseTimer, drop the idle timeout
    let flush := if ctx.conversationHistory ≠ [] then
      [Effect.saveTranscript ctx.sessionId ctx.conversationHistory]
      else []
    -- snapshot elapsed (status still the pre-disconnect one), then
    -- mark grace period and store the new grace timer handle
    let e := getElapsedSeconds ctx nowMs
    let ctx' := { ctx with
      timerHandles := [],
      pauseGeminiCloseTimer := none,
      elapsedSeconds := e,
      status := .gracePeriod,
      disconnectTimer := some graceTid }
    ({ sessions := mapSet st.sessions cid ctx',
       idleTimeouts := st.idleTimeouts.filter (fun c => c ≠ cid) },
     flush ++ [Effect.scheduleTimer .grace 5000])

/-- Body of the 5-second grace-period timer scheduled by
`handleDisconnect`.  The closure captured the context object and the
client id; it never re-reads the `sessions` map (it only deletes the
entry at the end).  `dbStatus` is the `exam_sessions.status` row the
callback reads back. -/
def graceExpiryFire (st : GatewayState) (ctx0 : SessionContext)
    (cid : String) (dbStatus : Option SessStatus) :
    GatewayState × List Effect :=
  let persist :=
    match dbStatus with
    | some s =>
      if s = .active ∨ s = .paused then
        [Effect.persistStatus ctx0.sessionId .interrupted
          (some ctx0.elapsedSeconds)]
      else []
    | none => []
  ({ st with sessions := mapDelete st.sessions cid },
   Effect.geminiClose ctx0.sessionId :: persist)

/-- `handlePauseSession`.  `updateOk` = whether the `exam_sessions`
update to `'paused'` succeeded; `pauseTid` is the handle allocated for
the 60-second pause close timer.  Note the source sets
`context.status = 'paused'` *before* calling `getElapsedSeconds`, so
the stored snapshot is the previous `elapsedSeconds`, not the live
elapsed time. -/
def handlePauseSession (st : GatewayState) (cid : String) (nowMs : Int)
    (updateOk : Bool) (pauseTid : Nat) : GatewayState × List Effect :=
  match mapGet st.sessions cid with
  | none => (st, [Effect.emitErr cid "SESSION_NOT_FOUND"])
  | some ctx =>
    if ctx.status ≠ .active then
      (st, [Effect.emitErr cid "INVALID_SESSION_STATE"])
    else
      let ctx1 := { ctx with
        status := SessStatus.paused,
        timerHandles := [] }
      let ctx2 := { ctx1 with
        elapsedSeconds := getElapsedSeconds ctx1 nowMs }
      let persist := Effect.persistStatus ctx2.sessionId .paused
        (some ctx2.elapsedSeconds)
      if ¬ updateOk then
        ({ sessions := mapSet st.sessions cid ctx2,
           idleTimeouts := st.idleTimeouts.filter (fun c => c ≠ cid) },
         [persist, Effect.emitErr cid "DATABASE_ERROR"])
      else
        let ctx3 := { ctx2 with pauseGeminiCloseTimer := some pauseTid }
        ({ sessions := mapSet st.sessions cid ctx3,
           idleTimeouts := st.idleTimeouts.filter (fun c => c ≠ cid) },
         [persist, Effect.scheduleTimer .pauseExpiry 60000,
          Effect.emitEvent cid "session_paused"])

/-- Body of the 60-second pause close timer scheduled by
`handlePauseSession`.  The closure closes the Gemini session and sets
`context.status = 'grace_period'` on the *captured* context object
without re-reading the `sessions` map; the object is the map's entry
exactly when the entry at the captured client id still exists, so the
aliased write is modelled as an in-place update there, and is
unobservable in the map when the entry was deleted. -/
def pauseExpiryFire (st : GatewayState) (ctx0 : SessionContext)
    (cid : String) (clientConnected : Bool) :
    GatewayState × List Effect :=
  let sessions' :=
    match mapGet st.sessions cid with
    | some cur => mapSet st.sessions cid
        { cur with status := SessStatus.gracePeriod }
    | none => st.sessions
  ({ st with sessions := sessions' },
   Effect.geminiClose ctx0.sessionId ::
     (if clientConnected then [Effect.emitEvent cid "pause_timeout"]
      else []))

/-- `setupTimerWarnings`: countdown warnings at 120/60/30 seconds
remaining, scheduled `(timeLimit - threshold) * 1000` ms out, skipped
when the delay is not positive. -/
def warningEffects (timeLimit : Int) : List Effect :=
  ([120, 60, 30] : List Int).filterMap (fun threshold =>
    let d := (timeLimit - threshold) * 1000
    if d > 0 then some (Effect.scheduleTimer (.warning threshold) d)
    else none)

/-- The timer handles `setupTimerWarnings` pushes (by purpose). -/
def warningPurposes (timeLimit : Int) : List TimerPurpose :=
  ([120, 60, 30] : List Int).filterMap (fun threshold =>
    if (timeLimit - threshold) * 1000 > 0 then
      some (TimerPurpose.warning threshold)
    else none)

/-- `setupTimerWarnings` + `setupAutoEnd` scheduling: both guard on
`timeLimit && expectedEndTime`.  `setupAutoEnd` schedules its callback
`timeLimit * 1000` ms out — the full time limit, regardless of
`expectedEndTime`. -/
def setupEffects (ctx : SessionContext) : List Effect :=
  match ctx.timeLimit, ctx.expectedEndTime with
  | some l, some _ =>
    warningEffects l ++ [Effect.scheduleTimer .autoEnd (l * 1000)]
  | _, _ => []

/-- The handles pushed into `timerHandles` by the two setup calls. -/
def setupPurposes (ctx : SessionContext) : List TimerPurpose :=
  match ctx.timeLimit, ctx.expectedEndTime with
  | some l, some _ => warningPurposes l ++ [TimerPurpose.autoEnd]
  | _, _ => []

/-- `handleResumeSession`.  `geminiActive` =
`isSessionActive(sessionId)`; `createOk` = whether the re-init
`createLiveSession` call succeeds when needed.  On resume the source
derives `startTime = now - elapsedSeconds * 1000` and recomputes
`expectedEndTime = startTime + timeLimit * 1000`, then calls the two
setup functions. -/
def handleResumeSession (st : GatewayState) (cid : String)
    (nowMs : Int) (geminiActive : Bool) (createOk : Bool) :
    GatewayState × List Effect :=
  match mapGet st.sessions cid with
  | none => (st, [Effect.emitErr cid "SESSION_NOT_FOUND"])
  | some ctx =>
    if ctx.status ≠ .paused ∧ ctx.status ≠ .gracePeriod then
      (st, [Effect.emitErr cid "INVALID_SESSION_STATE"])
    else
      let cancelEff := if ctx.pauseGeminiCloseTimer.isSome then
        [Effect.cancelTimer .pauseExpiry] else []
      let ctx1 := { ctx with pauseGeminiCloseTimer := none }
      let reinitEff := if ¬ geminiActive then
        [Effect.geminiCreate ctx1.sessionId] else []
      if ¬ geminiActive ∧ ¬ createOk then
        ({ st with sessions := mapSet st.sessions cid ctx1 },
         cancelEff ++ reinitEff ++
           [Effect.emitErr cid "GEMINI_REINIT_FAILED"])
      else
        let ctx2 := { ctx1 with
          status := SessStatus.active,
          lastAudioTimestamp := nowMs,
          startTime := nowMs - ctx1.elapsedSeconds * 1000,
          timerHandles := [] }
        let ctx3 :=
          match ctx2.timeLimit, ctx2.expectedEndTime with
          | some l, some _ =>
            let c := { ctx2 with
              expectedEndTime := some (ctx2.startTime + l * 1000) }
            { c with timerHandles := setupPurposes c }
          | _, _ => ctx2
        ({ st with sessions := mapSet st.sessions cid ctx3 },
         cancelEff ++ reinitEff ++ setupEffects ctx3 ++
           [Effect.persistStatus ctx3.sessionId .active none,
            Effect.emitEvent cid "session_resumed"])

/-- Body of the auto-end timer scheduled by `setupAutoEnd`.  It
re-reads the current context by client id and returns untouched unless
the status is still `'active'` or `'paused'`; on firing it flushes the
transcript, persists `'completed'` with `elapsed_time =
context.timeLimit` (the captured constant), closes Gemini, notifies,
deregisters and force-disconnects. -/
def autoEndFire (st : GatewayState) (ctx0 : SessionContext)
    (cid : String) : GatewayState × List Effect :=
  match mapGet st.sessions cid with
  | none => (st, [])
  | some cur =>
    if cur.status ≠ .active ∧ cur.status ≠ .paused then (st, [])
    else
      let flush := if cur.conversationHistory ≠ [] then
        [Effect.saveTranscript cur.sessionId cur.conversationHistory]
        else []
      ({ sessions := mapDelete st.sessions cid,
         idleTimeouts := st.idleTimeouts.filter (fun c => c ≠ cid) },
       flush ++
       [Effect.persistStatus ctx0.sessionId .completed ctx0.timeLimit,
        Effect.geminiClose ctx0.sessionId,
        Effect.emitEvent cid "session_ended",
        Effect.disconnectClient cid])

/-- Body of a countdown warning timer scheduled by
`setupTimerWarnings`: re-reads the current context by client id and
only emits a `time_warning` when the session still exists and the
client is still connected.  It never mutates state. -/
def timerWarningFire (st : GatewayState) (cid : String)
    (clientConnected : Bool) : GatewayState × List Effect :=
  match mapGet st.sessions cid with
  | none => (st, [])
  | some _ =>
    if clientConnected then (st, [Effect.emitEvent cid "time_warning"])
    else (st, [])

/-! ### Connection admission (`handleConnection`) -/

/-- The rejection branches of `handleConnection`, one per
`connection_error` emit site, in source order.  (The final
catch-all `5000 Unexpected server error` emit is unreachable in the
embedding because no embedded operation throws.) -/
inductive RejectCause where
  | missingSessionId
  | missingToken
  | invalidToken
  | ownershipMismatchReconnect
  | duplicateConnection
  | sessionNotFound
  | wrongStatus
  | ownershipMismatch
  | studentValidationFailed
  | noActiveActivationCode
  | activationCodeExpired
  | geminiInitFailed
  | geminiNotActiveAfterInit
deriving DecidableEq, Repr, Fintype

/-- The numeric `connection_error` code each rejection branch emits. -/
def codeOf : RejectCause → Nat
  | .missingSessionId => 4001
  | .missingToken => 4008
  | .invalidToken => 4009
  | .ownershipMismatchReconnect => 4010
  | .duplicateConnection => 4006
  | .sessionNotFound => 4001
  | .wrongStatus => 4002
  | .ownershipMismatch => 4010
  | .studentValidationFailed => 4003
  | .noActiveActivationCode => 4004
  | .activationCodeExpired => 4005
  | .geminiInitFailed => 4007
  | .geminiNotActiveAfterInit => 4007

/-- Two rejection branches report the same underlying cause exactly
when the source reuses one emit site's semantics: the two
ownership-mismatch emits (reconnection and fresh admission) and the
two Gemini-initialization emits. -/
def sameSpecCause (a b : RejectCause) : Prop :=
  a = b ∨
  (a = .ownershipMismatchReconnect ∧ b = .ownershipMismatch) ∨
  (a = .ownershipMismatch ∧ b = .ownershipMismatchReconnect) ∨
  (a = .geminiInitFailed ∧ b = .geminiNotActiveAfterInit) ∨
  (a = .geminiNotActiveAfterInit ∧ b = .geminiInitFailed)

instance (a b : RejectCause) : Decidable (sameSpecCause a b) := by
  unfold sameSpecCause
  infer_instance

/-- Every rejection emits a `connection_error` with the branch's code
and then `client.disconnect(true)`. -/
def rejectEffects (cid : String) (c : RejectCause) : List Effect :=
  [Effect.emitConnError cid (codeOf c), Effect.disconnectClient cid]

/-- `exam_sessions` row fields `handleConnection` reads. -/
structure ExamRow where
  status : SessStatus
  student_id : String
  teil_number : Nat
  /-- `server_start_time` in epoch milliseconds. -/
  server_start_time : Int
  /-- `elapsed_time`, nullable in the database. -/
  elapsed_time : Option Int
  use_timer : Bool
deriving DecidableEq, Repr

/-- `students` row fields read (id plus activation code). -/
structure StudentRow where
  id : String
  activation_code : String
deriving DecidableEq, Repr

/-- `activation_codes` row fields read. -/
structure ACRow where
  status : String
  /-- `expires_at` in epoch milliseconds, nullable. -/
  expires_at : Option Int
deriving DecidableEq, Repr

/-- Inputs of one `handleConnection` run: the connecting socket's id
and handshake data, the wall clock, and the outcomes of the external
calls (database lookups, Gemini session creation and the subsequent
`isSessionActive` probe). -/
structure ConnInput where
  clientId : String
  /-- `handshake.query.sessionId`, absent when missing. -/
  sessionId : Option String
  /-- Whether any token was supplied (auth / query / header). -/
  hasToken : Bool
  /-- `verifyAccessToken` result: `some studentId`, or `none` when
  verification throws. -/
  authStudent : Option String
  nowMs : Int
  examSession : Option ExamRow
  student : Option StudentRow
  activationCode : Option ACRow
  geminiCreateOk : Bool
  geminiActiveAfterCreate : Bool
deriving DecidableEq, Repr

/-- Result of one `handleConnection` run. -/
inductive ConnOutcome where
  | rejected (cause : RejectCause)
  | reconnected (sessionId : String)
  | admitted (sessionId : String)
deriving DecidableEq, Repr

/-- `findSessionBySessionId`: scan the `sessions` map for the first
entry whose context carries the given exam-session id. -/
def findSessionBySessionId :
    List (String × SessionContext) → String →
    Option (String × SessionContext)
  | [], _ => none
  | e :: rest, sid =>
    if e.2.sessionId = sid then some e
    else findSessionBySessionId rest sid

/-- The fresh `SessionContext` built at admission (Step 5 of the
source): `timeLimit` is 240 s for Teil 1 and 360 s otherwise when
`use_timer` is set, `expectedEndTime` is `server_start_time` plus that
limit in milliseconds, and `elapsedSeconds` is `elapsed_time || 0`. -/
def freshContext (cid sid studentId : String) (row : ExamRow)
    (nowMs : Int) : SessionContext :=
  { clientId := cid,
    sessionId := sid,
    studentId := studentId,
    teilNumber := row.teil_number,
    conversationHistory := [],
    status := .active,
    startTime := row.server_start_time,
    elapsedSeconds := row.elapsed_time.getD 0,
    timeLimit := if row.use_timer then
      some (if row.teil_number = 1 then 240 else 360) else none,
    expectedEndTime := if row.use_timer then
      some (row.server_start_time +
        (if row.teil_number = 1 then 240000 else 360000)) else none,
    disconnectTimer := none,
    pauseTimer := none,
    pauseGeminiCloseTimer := none,
    lastAudioTimestamp := nowMs,
    pausePending := false,
    geminiConnectionAttempts := 1,
    lastGeminiError := none,
    chunkTimestamps := [],
    timerHandles := [] }

/-- `handleConnection`: admission, reconnection and rejection, in the
source's order — missing session id, missing/invalid credential,
registry lookup by exam-session id (reconnection when the stored
context holds a pending `disconnectTimer`, duplicate-connection
rejection otherwise), then fresh admission against the database rows,
Gemini initialization, registration, `session_ready`, and timer
setup. -/
def handleConnection (st : GatewayState) (inp : ConnInput) :
    GatewayState × ConnOutcome × List Effect :=
  match inp.sessionId with
  | none =>
    (st, .rejected .missingSessionId,
     rejectEffects inp.clientId .missingSessionId)
  | some sid =>
    if ¬ inp.hasToken then
      (st, .rejected .missingToken,
       rejectEffects inp.clientId .missingToken)
    else
      match inp.authStudent with
      | none =>
        (st, .rejected .invalidToken,
         rejectEffects inp.clientId .invalidToken)
      | some studentId =>
        match findSessionBySessionId st.sessions sid with
        | some (oldCid, ctx) =>
          if ctx.disconnectTimer.isSome then
            if ctx.studentId ≠ studentId then
              (st, .rejected .ownershipMismatchReconnect,
               rejectEffects inp.clientId .ownershipMismatchReconnect)
            else
              let ctx' := { ctx with
                disconnectTimer := none,
                clientId := inp.clientId,
                status := SessStatus.active,
                lastAudioTimestamp := inp.nowMs }
              let idleCancel :=
                if oldCid ∈ st.idleTimeouts then
                  [Effect.cancelTimer .idle] else []
              ({ sessions := mapSet (mapDelete st.sessions oldCid)
                   inp.clientId ctx',
                 idleTimeouts :=
                   st.idleTimeouts.filter (fun c => c ≠ oldCid) },
               .reconnected sid,
               Effect.cancelTimer .grace :: idleCancel ++
                 [Effect.emitSessionReady inp.clientId "reconnected"])
          else
            (st, .rejected .duplicateConnection,
             rejectEffects inp.clientId .duplicateConnection)
        | none =>
          match inp.examSession with
          | none =>
            (st, .rejected .sessionNotFound,
             rejectEffects inp.clientId .sessionNotFound)
          | some row =>
            if row.status ≠ .active then
              (st, .rejected .wrongStatus,
               rejectEffects inp.clientId .wrongStatus)
            else if row.student_id ≠ studentId then
              (st, .rejected .ownershipMismatch,
               rejectEffects inp.clientId .ownershipMismatch)
            else
              match inp.student with
              | none =>
                (st, .rejected .studentValidationFailed,
                 rejectEffects inp.clientId .studentValidationFailed)
              | some _ =>
                match inp.activationCode with
                | none =>
                  (st, .rejected .noActiveActivationCode,
                   rejectEffects inp.clientId .noActiveActivationCode)
                | some ac =>
                  if ac.status ≠ "active" then
                    (st, .rejected .noActiveActivationCode,
                     rejectEffects inp.clientId .noActiveActivationCode)
                  else if (match ac.expires_at with
                    | some e => decide (e < inp.nowMs)
                    | none => false) then
                    (st, .rejected .activationCodeExpired,
                     rejectEffects inp.clientId .activationCodeExpired)
                  else
                    let ctx := freshContext inp.clientId sid
                      row.student_id row inp.nowMs
                    if ¬ inp.geminiCreateOk then
                      (st, .rejected .geminiInitFailed,
                       Effect.geminiCreate sid ::
                         rejectEffects inp.clientId .geminiInitFailed)
                    else if ¬ inp.geminiActiveAfterCreate then
                      (st, .rejected .geminiNotActiveAfterInit,
                       Effect.geminiCreate sid ::
                         rejectEffects inp.clientId
                           .geminiNotActiveAfterInit)
                    else
                      let ctx2 :=
                        { ctx with timerHandles := setupPurposes ctx }
                      ({ st with
                         sessions := mapSet st.sessions inp.clientId
                           ctx2 },
                       .admitted sid,
                       [Effect.geminiCreate sid,
                        Effect.emitSessionReady inp.clientId "ready"] ++
                         setupEffects ctx2)

/-! ### Explicit end (`speaking.service.ts` `endSession`) -/

/-- `exam_sessions` row fields `endSession` reads. -/
structure EndRow where
  status : SessStatus
  server_start_time : Int
  elapsed_time : Int
  /-- `pause_timestamp` in epoch milliseconds, nullable. -/
  pause_timestamp : Option Int
  use_timer : Bool
  time_limit_seconds : Option Int
  teil_number : Nat
deriving DecidableEq, Repr

/-- The caller-supplied `reason` of `endSession`. -/
inductive EndReason where
  | completed
  | cancelled
deriving DecidableEq, Repr

/-- Result of `endSession`: the computed `(duration, isEvaluable)` on
success (`none` models a thrown `NotFoundException` /
`BadRequestException`), the service's remaining `sessionStates` map,
and the effect trace.  The source updates the `exam_sessions` row to
its terminal status first and saves the transcript afterwards, and
only when a non-empty `conversationHistory` argument was passed. -/
structure EndResult where
  summary : Option (Int × Bool)
  sessionStates : List (String × SessStatus)
  effects : List Effect
deriving DecidableEq, Repr

/-- `endSession(sessionId, studentId, reason?, conversationHistory?)`
from the speaking service.  `row` is the ownership-filtered database
lookup result; `updateOk` is whether the terminal update succeeds. -/
def endSession (sessionStates : List (String × SessStatus))
    (sid : String) (row : Option EndRow) (reason : Option EndReason)
    (history : Option (List ConvMsg)) (nowMs : Int)
    (updateOk : Bool) : EndResult :=
  match row with
  | none => { summary := none, sessionStates := sessionStates,
              effects := [] }
  | some r =>
    let base := Int.fdiv (nowMs - r.server_start_time) 1000
    let total : Int :=
      match r.status, r.pause_timestamp with
      | .paused, some pt => r.elapsed_time + Int.fdiv (nowMs - pt) 1000
      | _, _ => base
    let isEval := total ≥ 120
    let newStatus : SessStatus :=
      match reason with
      | some .cancelled => .cancelled
      | _ => .completed
    let persist := Effect.persistStatus sid newStatus (some total)
    if ¬ updateOk then
      { summary := none, sessionStates := sessionStates,
        effects := [persist] }
    else
      let flush :=
        match history with
        | some h => if h ≠ [] then [Effect.saveTranscript sid h] else []
        | none => []
      { summary := some (total, isEval),
        sessionStates := mapDelete sessionStates sid,
        effects := persist :: flush }

/-! ### Gemini adapter (`gemini.service.ts`) -/

/-- Bookkeeping the adapter keeps per live Gemini session.
`closeThrows` models whether `session.close()` would throw. -/
structure GeminiSessionData where
  setupComplete : Bool
  connected : Bool
  closeThrows : Bool
deriving DecidableEq, Repr

/-- Result of `closeLiveSession`: the updated `activeSessions` map,
whether an error escaped to the caller, whether the underlying
`session.close()` call was attempted, and whether its failure was
caught-and-logged. -/
structure CloseResult where
  sessions : List (String × GeminiSessionData)
  threwToCaller : Bool
  closeAttempted : Bool
  closeErrorCaught : Bool
deriving DecidableEq, Repr

/-- `closeLiveSession(sessionId)`: warn-and-return when the handle is
unknown; otherwise attempt `session.close()` inside its own try/catch
and always delete the bookkeeping entry.  No error ever escapes. -/
def closeLiveSession (m : List (String × GeminiSessionData))
    (sid : String) : CloseResult :=
  match mapGet m sid with
  | none =>
    { sessions := m, threwToCaller := false,
      closeAttempted := false, closeErrorCaught := false }
  | some d =>
    { sessions := mapDelete m sid, threwToCaller := false,
      closeAttempted := true, closeErrorCaught := d.closeThrows }

/-! ### Trace predicates and registry invariants -/

/-- Is this effect a transcript flush? -/
def isFlush : Effect → Bool
  | .saveTranscript _ _ => true
  | _ => false

/-- Is this effect a terminal status persistence
(`interrupted`/`completed`/`cancelled`)? -/
def isTerminalPersist : Effect → Bool
  | .persistStatus _ .interrupted _ => true
  | .persistStatus _ .completed _ => true
  | .persistStatus _ .cancelled _ => true
  | _ => false

/-- Scan helper: `seen` records whether a flush occurred earlier. -/
def flushSeen : List Effect → Bool → Bool
  | [], _ => true
  | e :: rest, seen =>
    if isTerminalPersist e then seen && flushSeen rest seen
    else flushSeen rest (seen || isFlush e)

/-- Every terminal persistence in the trace is strictly preceded by at
least one transcript flush. -/
def flushPrecedesPersist (effs : List Effect) : Bool :=
  flushSeen effs false

/-- Number of transcript flushes in a trace. -/
def flushCount (effs : List Effect) : Nat :=
  (effs.filter isFlush).length

/-- The exam-session ids of the registry's contexts, in map order. -/
def sessionIds (m : List (String × SessionContext)) : List String :=
  m.map (fun e => e.2.sessionId)

/-- Registry well-formedness: client-id keys are pairwise distinct
(a `Map` property) and at most one context exists per
`examSessionId`. -/
def RegistryWF (m : List (String × SessionContext)) : Prop :=
  (m.map Prod.fst).Nodup ∧ (sessionIds m).Nodup

/-- Timer/state coherence: a stored grace-period `disconnectTimer`
only ever exists on a context in `grace_period` (the two are written
together in `handleDisconnect` and cleared together on
reconnection). -/
def timerCoherent (m : List (String × SessionContext)) : Prop :=
  ∀ e ∈ m, e.2.disconnectTimer ≠ none → e.2.status = .gracePeriod

/-! ### Concrete fixtures used by witnesses and counterexamples -/

/-- A live active context (Teil 1, 240-second limit). -/
def baseCtx : SessionContext :=
  { clientId := "c0", sessionId := "s1", studentId := "stu1",
    teilNumber := 1, conversationHistory := [], status := .active,
    startTime := 0, elapsedSeconds := 0, timeLimit := some 240,
    expectedEndTime := some 240000, disconnectTimer := none,
    pauseTimer := none, pauseGeminiCloseTimer := none,
    lastAudioTimestamp := 0, pausePending := false,
    geminiConnectionAttempts := 1, lastGeminiError := none,
    chunkTimestamps := [], timerHandles := [] }

/-- A sample conversation entry. -/
def msg0 : ConvMsg :=
  { speaker := "elena", text := "Guten Tag", timestamp := "t0" }

/-- `grace_period` context reached through the pause-expiry path:
no pending `disconnectTimer`. -/
def gpCtxNoTimer : SessionContext :=
  { baseCtx with status := .gracePeriod, elapsedSeconds := 30 }

/-- `grace_period` context reached through disconnect: pending
`disconnectTimer`. -/
def gpCtxWithTimer : SessionContext :=
  { baseCtx with
    status := .gracePeriod, elapsedSeconds := 30,
    disconnectTimer := some 7 }

/-- Active context whose rate window already holds 50 arrivals inside
the trailing second of `nowMs = 1000`. -/
def rateCtx : SessionContext :=
  { baseCtx with chunkTimestamps := List.replicate 50 (500 : Int) }

/-- A paused context whose frozen elapsed time (30 s) differs from its
240-second limit. -/
def pausedCtx : SessionContext :=
  { baseCtx with status := .paused, elapsedSeconds := 30 }

/-- An active context with a non-empty conversation log. -/
def ctxH : SessionContext :=
  { baseCtx with conversationHistory := [msg0] }

/-- A payload passing format, Base64 and size checks. -/
def okPayload : AudioPayload :=
  { dataPresent := true, validB64 := true, dataLen := 1600 }

/-- Admission input with the session id missing from the query. -/
def inpMissing : ConnInput :=
  { clientId := "c9", sessionId := none, hasToken := true,
    authStudent := some "stu1", nowMs := 0, examSession := none,
    student := none, activationCode := none, geminiCreateOk := true,
    geminiActiveAfterCreate := true }

/-- Admission input whose session id is not in the registry and whose
database lookup returns no row. -/
def inpNotFound : ConnInput :=
  { clientId := "c9", sessionId := some "nope", hasToken := true,
    authStudent := some "stu1", nowMs := 0, examSession := none,
    student := none, activationCode := none, geminiCreateOk := true,
    geminiActiveAfterCreate := true }

/-- A reconnection attempt by the same owner as `baseCtx`. -/
def inpSameOwner : ConnInput :=
  { clientId := "c1", sessionId := some "s1", hasToken := true,
    authStudent := some "stu1", nowMs := 777, examSession := none,
    student := none, activationCode := none, geminiCreateOk := true,
    geminiActiveAfterCreate := true }

/-- A reconnection attempt by a different student. -/
def inpOtherOwner : ConnInput :=
  { clientId := "c1", sessionId := some "s1", hasToken := true,
    authStudent := some "stu2", nowMs := 777, examSession := none,
    student := none, activationCode := none, geminiCreateOk := true,
    geminiActiveAfterCreate := true }

/-- Timed Teil-1 exam row started at epoch 0. -/
def rowT1 : ExamRow :=
  { status := .active, student_id := "stu1", teil_number := 1,
    server_start_time := 0, elapsed_time := none, use_timer := true }

/-- Fresh-admission input for `rowT1` with all external calls
succeeding. -/
def connInpT1 : ConnInput :=
  { clientId := "c0", sessionId := some "s1", hasToken := true,
    authStudent := some "stu1", nowMs := 0,
    examSession := some rowT1,
    student := some { id := "stu1", activation_code := "AC" },
    activationCode := some { status := "active", expires_at := none },
    geminiCreateOk := true, geminiActiveAfterCreate := true }

/-- State after admitting `connInpT1` into an empty gateway. -/
def stAdmitted : GatewayState :=
  (handleConnection { sessions := [], idleTimeouts := [] } connInpT1).1

/-- State after pausing that session at t = 100 s (the live elapsed
active time is 100 s at that moment). -/
def stPaused : GatewayState :=
  (handlePauseSession stAdmitted "c0" 100000 true 9).1

/-- Resuming that session at t = 500 s. -/
def resumeRun : GatewayState × List Effect :=
  handleResumeSession stPaused "c0" 500000 true true

/-- An `exam_sessions` row as `endSession` reads it for a running
session started at epoch 0. -/
def endRow0 : EndRow :=
  { status := .active, server_start_time := 0, elapsed_time := 0,
    pause_timestamp := none, use_timer := true,
    time_limit_seconds := some 240, teil_number := 1 }

/-- A paused context with frozen elapsed snapshot 100 s and a
240-second limit. -/
def pausedCtx100 : SessionContext :=
  { baseCtx with status := .paused, elapsedSeconds := 100 }

/-- Resuming `pausedCtx100` at t = 500 s. -/
def resumeRun100 : GatewayState × List Effect :=
  handleResumeSession
    { sessions := [("c0", pausedCtx100)], idleTimeouts := [] }
    "c0" 500000 true true

/-- Adapter bookkeeping with one registered handle whose underlying
`session.close()` throws. -/
def gmap0 : List (String × GeminiSessionData) :=
  [("g", { setupComplete := true, connected := true,
           closeThrows := true })]

/-! ### Map lemmas -/

theorem mapGet_mapDelete_self {α : Type} (m : List (String × α))
    (k : String) : mapGet (mapDelete m k) k = none := by
  induction m with
  | nil => rfl
  | cons e rest ih =>
    by_cases h : e.1 = k
    · simpa [mapDelete, List.filter_cons, h] using ih
    · simpa [mapDelete, List.filter_cons, h, mapGet] using ih

theorem mapGet_append {α : Type} (l1 l2 : List (String × α))
    (k : String) :
    mapGet (l1 ++ l2) k =
      match mapGet l1 k with
      | some v => some v
      | none => mapGet l2 k := by
  induction l1 with
  | nil => rfl
  | cons e rest ih =>
    by_cases h : e.1 = k
    · simp [mapGet, h]
    · simpa [mapGet, h] using ih

theorem mapGet_mapSet_self {α : Type} (m : List (String × α))
    (k : String) (v : α) : mapGet (mapSet m k v) k = some v := by
  unfold mapSet
  rw [mapGet_append]
  rw [mapGet_mapDelete_self]
  simp [mapGet]

theorem mapGet_mapSet_ne {α : Type} (m : List (String × α))
    (k k' : String) (v : α) (h : k' ≠ k) :
    mapGet (mapSet m k v) k' = mapGet (mapDelete m k) k' := by
  unfold mapSet
  rw [mapGet_append]
  cases h1 : mapGet (mapDelete m k) k' with
  | some w => rfl
  | none => simp [mapGet, Ne.symm h]

theorem mapGet_mem {α : Type} {m : List (String × α)} {k : String}
    {v : α} (h : mapGet m k = some v) : (k, v) ∈ m := by
  induction m with
  | nil => simp [mapGet] at h
  | cons e rest ih =>
    by_cases hk : e.1 = k
    · simp only [mapGet, if_pos hk] at h
      injection h with h2
      have he : e = (k, v) := by
        obtain ⟨e1, e2⟩ := e
        simp only at hk h2
        rw [hk, h2]
      exact List.mem_cons.mpr (Or.inl he.symm)
    · simp only [mapGet, if_neg hk] at h
      exact List.mem_cons_of_mem _ (ih h)

theorem find_mem {m : List (String × SessionContext)} {sid : String}
    {e : String × SessionContext}
    (h : findSessionBySessionId m sid = some e) :
    e ∈ m ∧ e.2.sessionId = sid := by
  induction m with
  | nil => simp [findSessionBySessionId] at h
  | cons e0 rest ih =>
    by_cases hs : e0.2.sessionId = sid
    · simp only [findSessionBySessionId, hs, if_pos] at h
      cases h
      exact ⟨List.mem_cons_self _ _, hs⟩
    · simp only [findSessionBySessionId, hs, if_neg, ite_false] at h
      exact ⟨List.mem_cons_of_mem _ (ih h).1, (ih h).2⟩

theorem find_none {m : List (String × SessionContext)} {sid : String}
    (h : findSessionBySessionId m sid = none) :
    ∀ e ∈ m, e.2.sessionId ≠ sid := by
  induction m with
  | nil => intro e he; simp at he
  | cons e0 rest ih =>
    intro e he
    by_cases hs : e0.2.sessionId = sid
    · simp [findSessionBySessionId, hs] at h
    · simp only [findSessionBySessionId, hs, if_neg, ite_false] at h
      rcases List.mem_cons.mp he with rfl | hmem
      · exact hs
      · exact ih h e hmem

theorem sid_unique {m : List (String × SessionContext)}
    (h : (sessionIds m).Nodup) {e1 e2 : String × SessionContext}
    (h1 : e1 ∈ m) (h2 : e2 ∈ m)
    (hs : e1.2.sessionId = e2.2.sessionId) : e1 = e2 :=
  List.inj_on_of_nodup_map h h1 h2 hs

theorem wf_mapDelete {m : List (String × SessionContext)}
    (h : RegistryWF m) (k : String) : RegistryWF (mapDelete m k) := by
  have hsub : List.Sublist (mapDelete m k) m := List.filter_sublist m
  refine ⟨h.1.sublist (hsub.map Prod.fst), h.2.sublist ?_⟩
  show List.Sublist (List.map (fun e => e.2.sessionId) (mapDelete m k))
    (List.map (fun e => e.2.sessionId) m)
  exact hsub.map (fun e => e.2.sessionId)

theorem wf_mapSet {m : List (String × SessionContext)} {k : String}
    {v : SessionContext} (h : RegistryWF m)
    (hfresh : ∀ e ∈ m, e.1 ≠ k → e.2.sessionId ≠ v.sessionId) :
    RegistryWF (mapSet m k v) := by
  have hwfd := wf_mapDelete h k
  constructor
  · show ((mapDelete m k ++ [(k, v)]).map Prod.fst).Nodup
    rw [List.map_append]
    refine List.nodup_append.mpr ⟨hwfd.1, by simp, ?_⟩
    intro a ha hb
    have hak : a = k := by simpa using hb
    rcases List.mem_map.mp ha with ⟨e, he, hef⟩
    rcases List.mem_filter.mp he with ⟨_, hp⟩
    have hek : e.1 ≠ k := by simpa using hp
    exact hek (hef.trans hak)
  · show ((mapDelete m k ++ [(k, v)]).map
      (fun e => e.2.sessionId)).Nodup
    rw [List.map_append]
    refine List.nodup_append.mpr ⟨hwfd.2, by simp, ?_⟩
    intro a ha hb
    have hav : a = v.sessionId := by simpa using hb
    rcases List.mem_map.mp ha with ⟨e, he, hesid⟩
    rcases List.mem_filter.mp he with ⟨hem, hp⟩
    have hek : e.1 ≠ k := by simpa using hp
    exact hfresh e hem hek (hesid.trans hav)

theorem wf_mapSet_of_get {m : List (String × SessionContext)}
    {k : String} {ctx v : SessionContext} (h : RegistryWF m)
    (hget : mapGet m k = some ctx)
    (hsid : v.sessionId = ctx.sessionId) :
    RegistryWF (mapSet m k v) := by
  refine wf_mapSet h ?_
  intro e hem hek hes
  have hmem : (k, ctx) ∈ m := mapGet_mem hget
  have : e = (k, ctx) := sid_unique h.2 hem hmem (by rw [hes, hsid])
  exact hek (by rw [this])

theorem wf_mapSet_fresh {m : List (String × SessionContext)}
    {k : String} {v : SessionContext} (h : RegistryWF m)
    (hfind : findSessionBySessionId m v.sessionId = none) :
    RegistryWF (mapSet m k v) :=
  wf_mapSet h (fun e hem _ hes => find_none hfind e hem hes)

/-! ### Claim theorems -/

/-- C10 — A disconnect event whose connection id has no
`SessionContext` in the registry is a no-op: `handleDisconnect`
returns the gateway state unchanged and produces no effects (no
registry mutation, no persistence, no adapter close, no grace-period
timer). -/
theorem disconnect_without_context_is_noop (st : GatewayState)
    (cid : String) (nowMs : Int) (tid : Nat)
    (h : mapGet st.sessions cid = none) :
    handleDisconnect st cid nowMs tid = (st, []) := by
  unfold handleDisconnect
  rw [h]

/-- C10 witness: the no-op at a concrete empty gateway. -/
theorem disconnect_without_context_is_noop_witness :
    handleDisconnect { sessions := [], idleTimeouts := [] } "cX" 0 0 =
      ({ sessions := [], idleTimeouts := [] }, []) :=
  disconnect_without_context_is_noop _ "cX" 0 0 rfl

/-- C8 — `closeLiveSession` is idempotent: closing an unregistered
session id is a no-op raising no error; closing a registered handle
always removes the bookkeeping entry (even when the underlying
`session.close()` throws, which is caught) and never lets an error
escape; hence a second close is a no-op with no duplicate-close
error. -/
theorem close_live_session_idempotent
    (m : List (String × GeminiSessionData)) (sid : String) :
    (mapGet m sid = none →
      closeLiveSession m sid =
        { sessions := m, threwToCaller := false,
          closeAttempted := false, closeErrorCaught := false }) ∧
    (closeLiveSession m sid).threwToCaller = false ∧
    mapGet (closeLiveSession m sid).sessions sid = none ∧
    closeLiveSession (closeLiveSession m sid).sessions sid =
      { sessions := (closeLiveSession m sid).sessions,
        threwToCaller := false, closeAttempted := false,
        closeErrorCaught := false } := by
  have hnone : ∀ m' : List (String × GeminiSessionData),
      mapGet m' sid = none →
      closeLiveSession m' sid =
        { sessions := m', threwToCaller := false,
          closeAttempted := false, closeErrorCaught := false } := by
    intro m' h
    unfold closeLiveSession
    rw [h]
  cases hm : mapGet m sid with
  | none =>
    have h1 := hnone m hm
    exact ⟨fun _ => h1, by rw [h1], by rw [h1]; exact hm,
           by rw [h1]; exact hnone m hm⟩
  | some d =>
    have h1 : closeLiveSession m sid =
        { sessions := mapDelete m sid, threwToCaller := false,
          closeAttempted := true, closeErrorCaught := d.closeThrows } := by
      unfold closeLiveSession
      rw [hm]
    refine ⟨fun hc => ?_, by rw [h1],
            by rw [h1]; exact mapGet_mapDelete_self m sid,
            by rw [h1]; exact hnone _ (mapGet_mapDelete_self m sid)⟩
    exact Option.noConfusion hc

/-- C8 witness: a missing handle is a silent no-op, and a handle whose
underlying close throws is still removed with no error escaping, so
the follow-up close is again a silent no-op. -/
theorem close_live_session_idempotent_witness :
    closeLiveSession ([] : List (String × GeminiSessionData)) "g" =
      { sessions := [], threwToCaller := false,
        closeAttempted := false, closeErrorCaught := false } ∧
    (closeLiveSession gmap0 "g").threwToCaller = false ∧
    mapGet (closeLiveSession gmap0 "g").sessions "g" = none ∧
    closeLiveSession (closeLiveSession gmap0 "g").sessions "g" =
      { sessions := (closeLiveSession gmap0 "g").sessions,
        threwToCaller := false, closeAttempted := false,
        closeErrorCaught := false } :=
  ⟨(close_live_session_idempotent [] "g").1 rfl,
   (close_live_session_idempotent gmap0 "g").2.1,
   (close_live_session_idempotent gmap0 "g").2.2.1,
   (close_live_session_idempotent gmap0 "g").2.2.2⟩

/-- C5 (amended) — The auto-end and warning timer callbacks re-read
the current context by client id before acting and no-op (state and
effects empty) when the context was deregistered or, for auto-end,
when its status is no longer Active/Paused; the warning callback
never mutates state.  The grace-expiry and pause-expiry callbacks,
however, act on the captured context without re-reading (see the
counterexample). -/
theorem auto_end_and_warning_callbacks_stale_safe (st : GatewayState)
    (ctx0 : SessionContext) (cid : String) (connected : Bool) :
    (mapGet st.sessions cid = none →
      autoEndFire st ctx0 cid = (st, [])) ∧
    (∀ cur, mapGet st.sessions cid = some cur →
      cur.status ≠ .active → cur.status ≠ .paused →
      autoEndFire st ctx0 cid = (st, [])) ∧
    (mapGet st.sessions cid = none →
      timerWarningFire st cid connected = (st, [])) ∧
    (timerWarningFire st cid connected).1 = st := by
  refine ⟨?_, ?_, ?_, ?_⟩
  · intro h
    unfold autoEndFire
    rw [h]
  · intro cur h h1 h2
    unfold autoEndFire
    rw [h]
    simp only [if_pos (And.intro h1 h2)]
  · intro h
    unfold timerWarningFire
    rw [h]
  · unfold timerWarningFire
    cases mapGet st.sessions cid with
    | none => rfl
    | some c => by_cases hc : connected <;> simp [hc]

/-- C5 amended-theorem witness at a concrete deregistered context. -/
theorem auto_end_and_warning_callbacks_stale_safe_witness :
    autoEndFire { sessions := [], idleTimeouts := [] } baseCtx "c0" =
      ({ sessions := [], idleTimeouts := [] }, []) ∧
    autoEndFire { sessions := [("c0", gpCtxNoTimer)], idleTimeouts := [] }
      baseCtx "c0" =
      ({ sessions := [("c0", gpCtxNoTimer)], idleTimeouts := [] }, []) :=
  ⟨(auto_end_and_warning_callbacks_stale_safe
      { sessions := [], idleTimeouts := [] } baseCtx "c0" false).1 rfl,
   (auto_end_and_warning_callbacks_stale_safe
      { sessions := [("c0", gpCtxNoTimer)], idleTimeouts := [] }
      baseCtx "c0" false).2.1 gpCtxNoTimer rfl
      (by decide) (by decide)⟩

/-- C5 counterexample — the claim "every timer callback re-reads the
current context and performs no adapter operation if the context was
already deregistered" is false: the pause-expiry callback closes the
Gemini session of the captured context even though no context is
registered for the captured client id. -/
theorem pause_expiry_callback_acts_when_deregistered :
    mapGet (GatewayState.mk [] []).sessions "c0" = none ∧
    pauseExpiryFire { sessions := [], idleTimeouts := [] } baseCtx
      "c0" false =
      ({ sessions := [], idleTimeouts := [] },
       [Effect.geminiClose "s1"]) :=
  ⟨rfl, rfl⟩

/-- C9 — When the auto-end timer fires, every terminal persistence it
issues records `elapsed_time = timeLimit` (the captured full limit
constant), never the accumulated active time; and it issues exactly
that persistence whenever the re-read context is still Active or
Paused (in particular for a session paused partway through). -/
theorem auto_end_persists_full_time_limit (st : GatewayState)
    (ctx0 : SessionContext) (cid : String) :
    (∀ sid stat e,
      Effect.persistStatus sid stat e ∈ (autoEndFire st ctx0 cid).2 →
      e = ctx0.timeLimit ∧ stat = .completed ∧
        sid = ctx0.sessionId) ∧
    (∀ cur, mapGet st.sessions cid = some cur →
      (cur.status = .active ∨ cur.status = .paused) →
      Effect.persistStatus ctx0.sessionId .completed ctx0.timeLimit ∈
        (autoEndFire st ctx0 cid).2) := by
  constructor
  · intro sid stat e hmem
    unfold autoEndFire at hmem
    split at hmem
    · simp at hmem
    · split at hmem
      · simp at hmem
      · split_ifs at hmem with hh <;> simp at hmem <;>
          exact ⟨hmem.2.2, hmem.2.1, hmem.1⟩
  · intro cur h hsp
    unfold autoEndFire
    rw [h]
    have hns : ¬ (cur.status ≠ SessStatus.active ∧
        cur.status ≠ SessStatus.paused) := by
      rcases hsp with h1 | h1 <;> simp [h1]
    simp only [hns, if_neg hns]
    simp [List.mem_append]

/-- C9 witness: a session paused at 30 s of a 240-second limit still
gets `elapsed_time = 240` persisted by the auto-end callback. -/
theorem auto_end_persists_full_time_limit_witness :
    Effect.persistStatus "s1" .completed (some 240) ∈
      (autoEndFire
        { sessions := [("c0", pausedCtx)], idleTimeouts := [] }
        pausedCtx "c0").2 ∧
    pausedCtx.elapsedSeconds = 30 ∧ pausedCtx.timeLimit = some 240 :=
  ⟨(auto_end_persists_full_time_limit
      { sessions := [("c0", pausedCtx)], idleTimeouts := [] }
      pausedCtx "c0").2 pausedCtx rfl (Or.inr rfl),
   rfl, rfl⟩

/-- C7 — Rate limiting on inbound audio chunks of an Active session:
when the recorded arrivals inside the trailing second have reached the
cap of 50, the chunk is rejected with `RATE_LIMIT_EXCEEDED`, nothing
is forwarded to the adapter (the whole effect list is just the error
emit) and the arrival is not recorded (the stored window is
unchanged); otherwise the arrival is recorded (appended, pruned to the
last 100) and the chunk proceeds past admission with no rate error. -/
theorem audio_chunk_rate_limit (st : GatewayState) (cid : String)
    (ctx : SessionContext) (p : AudioPayload) (nowMs : Int)
    (geminiActive sendOk : Bool)
    (hctx : mapGet st.sessions cid = some ctx)
    (hact : ctx.status = .active)
    (hp : p.dataPresent = true) (hb : p.validB64 = true)
    (hlen : p.dataLen ≤ MAX_AUDIO_CHUNK_SIZE) :
    ((ctx.chunkTimestamps.filter
        (fun t => nowMs - t < 1000)).length ≥ 50 →
      handleAudioChunk st cid p nowMs geminiActive sendOk =
        ({ sessions := mapSet st.sessions cid
             { ctx with lastAudioTimestamp := nowMs },
           idleTimeouts :=
             st.idleTimeouts.filter (fun c => c ≠ cid) },
         [Effect.emitErr cid "RATE_LIMIT_EXCEEDED"])) ∧
    ((ctx.chunkTimestamps.filter
        (fun t => nowMs - t < 1000)).length < 50 →
      (∃ ctx',
        mapGet (handleAudioChunk st cid p nowMs geminiActive
          sendOk).1.sessions cid = some ctx' ∧
        ctx'.chunkTimestamps =
          (if (ctx.chunkTimestamps ++ [nowMs]).length > 100 then
            (ctx.chunkTimestamps ++ [nowMs]).drop
              ((ctx.chunkTimestamps ++ [nowMs]).length - 100)
           else ctx.chunkTimestamps ++ [nowMs])) ∧
      Effect.emitErr cid "RATE_LIMIT_EXCEEDED" ∉
        (handleAudioChunk st cid p nowMs geminiActive sendOk).2) := by
  have hstat : ¬ (ctx.status ≠ SessStatus.active) := by simp [hact]
  have hsize : ¬ (p.dataLen > MAX_AUDIO_CHUNK_SIZE) :=
    Nat.not_lt.mpr hlen
  constructor
  · intro hge
    have hge' : 50 ≤ (List.filter (fun t => decide (nowMs - t < 1000))
        ctx.chunkTimestamps).length := by simpa using hge
    unfold handleAudioChunk
    split
    · next heq =>
      rw [hctx] at heq
      exact Option.noConfusion heq
    · next c heq =>
      rw [hctx] at heq
      injection heq with hce
      subst hce
      simp [hstat, hp, hb, hsize, hge']
  · intro hlt
    have hlt' : ¬ 50 ≤ (List.filter (fun t => decide (nowMs - t < 1000))
        ctx.chunkTimestamps).length := by
      simpa using Nat.not_le.mpr hlt
    unfold handleAudioChunk
    split
    · next heq =>
      rw [hctx] at heq
      exact Option.noConfusion heq
    · next c heq =>
      rw [hctx] at heq
      injection heq with hce
      subst hce
      by_cases hg : geminiActive <;> by_cases hso : sendOk <;>
        simp [hstat, hp, hb, hsize, hlt', hg, hso, mapGet_mapSet_self]

/-- C7 witness: with 50 arrivals already inside the trailing second
the next chunk is rejected and not recorded; with an empty window the
arrival is recorded and no rate error is emitted. -/
theorem audio_chunk_rate_limit_witness :
    (handleAudioChunk
        { sessions := [("c0", rateCtx)], idleTimeouts := [] }
        "c0" okPayload 1000 true true =
      ({ sessions := mapSet [("c0", rateCtx)] "c0"
           { rateCtx with lastAudioTimestamp := 1000 },
         idleTimeouts := [] },
       [Effect.emitErr "c0" "RATE_LIMIT_EXCEEDED"])) ∧
    ((∃ ctx',
        mapGet (handleAudioChunk
          { sessions := [("c0", baseCtx)], idleTimeouts := [] }
          "c0" okPayload 1000 true true).1.sessions "c0" = some ctx' ∧
        ctx'.chunkTimestamps =
          (if (baseCtx.chunkTimestamps ++ [1000]).length > 100 then
            (baseCtx.chunkTimestamps ++ [1000]).drop
              ((baseCtx.chunkTimestamps ++ [1000]).length - 100)
           else baseCtx.chunkTimestamps ++ [1000])) ∧
      Effect.emitErr "c0" "RATE_LIMIT_EXCEEDED" ∉
        (handleAudioChunk
          { sessions := [("c0", baseCtx)], idleTimeouts := [] }
          "c0" okPayload 1000 true true).2) :=
  ⟨(audio_chunk_rate_limit
      { sessions := [("c0", rateCtx)], idleTimeouts := [] }
      "c0" rateCtx okPayload 1000 true true rfl rfl rfl rfl
      (by decide)).1 (by decide),
   (audio_chunk_rate_limit
      { sessions := [("c0", baseCtx)], idleTimeouts := [] }
      "c0" baseCtx okPayload 1000 true true rfl rfl rfl rfl
      (by decide)).2 (by decide)⟩

/-- C2 counterexample — the claim quantifies over every context in
state `GracePeriod`, but a context that entered `grace_period` through
the pause-expiry path has no pending `disconnectTimer`, and
`handleConnection` then rejects even the matching owner as a duplicate
connection (code 4006) instead of cancelling a grace timer,
reattaching and emitting a reconnected-ready event. -/
theorem reconnect_rejected_for_pause_expired_grace_period :
    gpCtxNoTimer.status = .gracePeriod ∧
    gpCtxNoTimer.studentId = "stu1" ∧
    inpSameOwner.authStudent = some "stu1" ∧
    handleConnection
      { sessions := [("c0", gpCtxNoTimer)], idleTimeouts := [] }
      inpSameOwner =
      ({ sessions := [("c0", gpCtxNoTimer)], idleTimeouts := [] },
       .rejected .duplicateConnection,
       rejectEffects "c1" .duplicateConnection) :=
  ⟨rfl, rfl, rfl, rfl⟩

/-- C2 (amended) — Reconnection applies exactly to registered contexts
holding a pending grace-expiry (disconnect) timer: for such a context
an owner mismatch is rejected (code 4010) with the registry — and thus
the pending grace timer — untouched, while a matching owner gets the
grace timer cancelled, the context reattached to the new connection id
in state Active with its conversation log preserved, and a
reconnected-ready event; a GracePeriod context without a pending
disconnect timer (pause-expiry path) instead rejects any new
connection as duplicate. -/
theorem reconnection_with_pending_grace_timer (st : GatewayState)
    (inp : ConnInput) (sid oldCid s : String) (ctx : SessionContext)
    (hsid : inp.sessionId = some sid) (htok : inp.hasToken = true)
    (hauth : inp.authStudent = some s)
    (hfind : findSessionBySessionId st.sessions sid =
      some (oldCid, ctx)) :
    (ctx.disconnectTimer.isSome = true → ctx.studentId ≠ s →
      handleConnection st inp =
        (st, .rejected .ownershipMismatchReconnect,
         rejectEffects inp.clientId .ownershipMismatchReconnect)) ∧
    (ctx.disconnectTimer.isSome = true → ctx.studentId = s →
      (handleConnection st inp).2.1 = .reconnected sid ∧
      mapGet (handleConnection st inp).1.sessions inp.clientId =
        some { ctx with
               disconnectTimer := none,
               clientId := inp.clientId, status := SessStatus.active,
               lastAudioTimestamp := inp.nowMs } ∧
      Effect.cancelTimer .grace ∈ (handleConnection st inp).2.2 ∧
      Effect.emitSessionReady inp.clientId "reconnected" ∈
        (handleConnection st inp).2.2) ∧
    (ctx.disconnectTimer = none →
      handleConnection st inp =
        (st, .rejected .duplicateConnection,
         rejectEffects inp.clientId .duplicateConnection)) := by
  refine ⟨?_, ?_, ?_⟩
  · intro htimer hne
    unfold handleConnection
    rw [hsid]
    simp only [htok, Bool.not_true, Bool.false_eq_true, if_false,
      ite_false]
    rw [hauth, hfind]
    simp only [htimer, if_true, ite_true, if_pos hne]
    simp
  · intro htimer heq
    have hne : ¬ (ctx.studentId ≠ s) := by simp [heq]
    unfold handleConnection
    rw [hsid]
    simp only [htok, Bool.not_true, Bool.false_eq_true, if_false,
      ite_false]
    rw [hauth, hfind]
    simp only [htimer, if_true, ite_true, if_neg hne]
    refine ⟨rfl, ?_, ?_, ?_⟩
    · exact mapGet_mapSet_self _ _ _
    · exact List.mem_cons_self _ _
    · by_cases hio : oldCid ∈ st.idleTimeouts <;>
        simp [hio, List.mem_cons, List.mem_append]
  · intro htimer
    unfold handleConnection
    rw [hsid]
    simp only [htok, Bool.not_true, Bool.false_eq_true, if_false,
      ite_false]
    rw [hauth, hfind]
    simp only [htimer, Option.isSome_none, Bool.false_eq_true,
      if_false, ite_false]
    simp

/-- C2 witness: for a pending disconnect timer, a different owner is
rejected with the registry untouched, the same owner is reattached;
and without a pending timer the same owner is rejected as duplicate. -/
theorem reconnection_with_pending_grace_timer_witness :
    (handleConnection
        { sessions := [("c0", gpCtxWithTimer)], idleTimeouts := [] }
        inpOtherOwner =
      ({ sessions := [("c0", gpCtxWithTimer)], idleTimeouts := [] },
       .rejected .ownershipMismatchReconnect,
       rejectEffects "c1" .ownershipMismatchReconnect)) ∧
    ((handleConnection
        { sessions := [("c0", gpCtxWithTimer)], idleTimeouts := [] }
        inpSameOwner).2.1 = .reconnected "s1" ∧
      mapGet (handleConnection
        { sessions := [("c0", gpCtxWithTimer)], idleTimeouts := [] }
        inpSameOwner).1.sessions "c1" =
        some { gpCtxWithTimer with
               disconnectTimer := none,
               clientId := "c1", status := SessStatus.active,
               lastAudioTimestamp := 777 } ∧
      Effect.cancelTimer .grace ∈ (handleConnection
        { sessions := [("c0", gpCtxWithTimer)], idleTimeouts := [] }
        inpSameOwner).2.2 ∧
      Effect.emitSessionReady "c1" "reconnected" ∈ (handleConnection
        { sessions := [("c0", gpCtxWithTimer)], idleTimeouts := [] }
        inpSameOwner).2.2) :=
  ⟨(reconnection_with_pending_grace_timer
      { sessions := [("c0", gpCtxWithTimer)], idleTimeouts := [] }
      inpOtherOwner "s1" "c0" "stu2" gpCtxWithTimer rfl rfl rfl
      rfl).1 rfl (by decide),
   (reconnection_with_pending_grace_timer
      { sessions := [("c0", gpCtxWithTimer)], idleTimeouts := [] }
      inpSameOwner "s1" "c0" "stu1" gpCtxWithTimer rfl rfl rfl
      rfl).2.1 rfl rfl⟩

/-- C6 counterexample — the rejection codes are not pairwise distinct
across causes: a missing target examSessionId and an examSessionId not
found in the store are different causes but both emit code 4001. -/
theorem rejection_code_collision :
    (handleConnection { sessions := [], idleTimeouts := [] }
      inpMissing).2.1 = .rejected .missingSessionId ∧
    (handleConnection { sessions := [], idleTimeouts := [] }
      inpNotFound).2.1 = .rejected .sessionNotFound ∧
    RejectCause.missingSessionId ≠ RejectCause.sessionNotFound ∧
    codeOf .missingSessionId = 4001 ∧
    codeOf .sessionNotFound = 4001 :=
  ⟨rfl, rfl, by decide, rfl, rfl⟩

/-- C6 (amended) — Every admission rejection emits its machine-
readable code and then closes the connection, and the codes are
pairwise distinct across rejection causes except that missing-target
and not-found share 4001 (the two ownership-mismatch emit sites and
the two upstream-init emit sites are each one cause). -/
theorem rejection_codes_distinct_except_4001 (st : GatewayState)
    (inp : ConnInput) :
    (∀ c st' effs,
      handleConnection st inp = (st', .rejected c, effs) →
      ∃ pre, effs =
        pre ++ [Effect.emitConnError inp.clientId (codeOf c),
                Effect.disconnectClient inp.clientId]) ∧
    (∀ c1 c2 : RejectCause, codeOf c1 = codeOf c2 →
      sameSpecCause c1 c2 ∨
      (c1 = .missingSessionId ∧ c2 = .sessionNotFound) ∨
      (c1 = .sessionNotFound ∧ c2 = .missingSessionId)) := by
  constructor
  · intro c st' effs h
    unfold handleConnection at h
    repeat' split at h
    all_goals
      injection h with h1 hrest
    all_goals
      injection hrest with h2 h3
    all_goals
      first
        | exact ConnOutcome.noConfusion h2
        | (cases h2; subst h3; exact ⟨[], rfl⟩)
        | (cases h2; subst h3;
           exact ⟨[Effect.geminiCreate _], rfl⟩)
  · decide

/-- C6 amended-theorem witness at a concrete rejected admission. -/
theorem rejection_codes_distinct_except_4001_witness :
    ∃ pre,
      (handleConnection { sessions := [], idleTimeouts := [] }
        inpNotFound).2.2 =
      pre ++ [Effect.emitConnError "c9" (codeOf .sessionNotFound),
              Effect.disconnectClient "c9"] :=
  (rejection_codes_distinct_except_4001
    { sessions := [], idleTimeouts := [] } inpNotFound).1
    .sessionNotFound
    (handleConnection { sessions := [], idleTimeouts := [] }
      inpNotFound).1
    (handleConnection { sessions := [], idleTimeouts := [] }
      inpNotFound).2.2 rfl

/-- C1 — code-bug evidence.  Admit a timed Teil-1 session (240-second
limit) at t = 0, pause at t = 100 s — the live elapsed active time is
then 100 s — and resume at t = 500 s.  The pause handler flips
`status` to `'paused'` *before* calling `getElapsedSeconds`, so the
frozen snapshot stays 0 instead of 100; the resume then recomputes
`expectedEndTime = resume + 240 s` and schedules auto-end 240 000 ms
out, not `timeLimit - E = 140 s`.  And even for a paused context whose
stored snapshot is E = 100 (so `expectedEndTime` is correctly
recomputed to resume + 140 s), `setupAutoEnd` still schedules the
auto-end a full 240 000 ms after resume, not when the remaining budget
elapses. -/
theorem pause_resume_timer_divergence :
    (∃ ctx, mapGet stAdmitted.sessions "c0" = some ctx ∧
      ctx.status = .active ∧ getElapsedSeconds ctx 100000 = 100) ∧
    (∃ ctx, mapGet stPaused.sessions "c0" = some ctx ∧
      ctx.status = .paused ∧ ctx.elapsedSeconds = 0) ∧
    (∃ ctx, mapGet resumeRun.1.sessions "c0" = some ctx ∧
      ctx.expectedEndTime = some 740000) ∧
    Effect.scheduleTimer .autoEnd 240000 ∈ resumeRun.2 ∧
    (∃ ctx, mapGet resumeRun100.1.sessions "c0" = some ctx ∧
      ctx.expectedEndTime = some 640000) ∧
    Effect.scheduleTimer .autoEnd 240000 ∈ resumeRun100.2 ∧
    Effect.scheduleTimer .autoEnd 140000 ∉ resumeRun100.2 := by
  refine ⟨⟨_, rfl, rfl, rfl⟩, ⟨_, rfl, rfl, rfl⟩, ⟨_, rfl, rfl⟩,
    by decide, ⟨_, rfl, rfl⟩, by decide, by decide⟩

/-- C4 counterexample — the explicit-end path does not flush before
persisting: `endSession` updates the terminal status first and saves
the supplied non-empty history afterwards, so its trace has exactly
one flush and the flush does not precede the terminal persistence. -/
theorem end_session_persists_before_flush :
    (endSession [] "s1" (some endRow0) (some .completed)
      (some [msg0]) 1000000 true).effects =
      [Effect.persistStatus "s1" .completed (some 1000),
       Effect.saveTranscript "s1" [msg0]] ∧
    flushCount (endSession [] "s1" (some endRow0) (some .completed)
      (some [msg0]) 1000000 true).effects = 1 ∧
    flushPrecedesPersist (endSession [] "s1" (some endRow0)
      (some .completed) (some [msg0]) 1000000 true).effects = false :=
  ⟨rfl, rfl, rfl⟩

set_option maxHeartbeats 2000000 in
/-- C4 (amended) — On the gateway's terminal paths the non-empty
conversation log is flushed before the terminal status is persisted:
the disconnect-then-grace-expiry trace flushes exactly once (at
disconnect, before the `interrupted` persist), the adapter-send-
failure trace flushes before its `interrupted` persist, and the
auto-end trace flushes before its `completed` persist; the explicit-
end service path instead persists the terminal status first and saves
the transcript afterwards (and only when a history is supplied). -/
theorem transcript_flush_ordering (st : GatewayState) (cid : String)
    (ctx : SessionContext) (nowMs : Int) (tid : Nat)
    (dbStatus : Option SessStatus)
    (hctx : mapGet st.sessions cid = some ctx)
    (hne : ctx.conversationHistory ≠ []) :
    (∀ ctx1,
      mapGet (handleDisconnect st cid nowMs tid).1.sessions cid =
        some ctx1 →
      flushCount ((handleDisconnect st cid nowMs tid).2 ++
        (graceExpiryFire (handleDisconnect st cid nowMs tid).1 ctx1
          cid dbStatus).2) = 1 ∧
      flushPrecedesPersist ((handleDisconnect st cid nowMs tid).2 ++
        (graceExpiryFire (handleDisconnect st cid nowMs tid).1 ctx1
          cid dbStatus).2) = true) ∧
    (∀ p ga so, flushPrecedesPersist
      (handleAudioChunk st cid p nowMs ga so).2 = true) ∧
    (∀ ctx0, flushPrecedesPersist (autoEndFire st ctx0 cid).2 =
      true) ∧
    (∀ ssts sid row reason h now2, h ≠ ([] : List ConvMsg) →
      flushCount (endSession ssts sid (some row) reason (some h) now2
        true).effects = 1 ∧
      flushPrecedesPersist (endSession ssts sid (some row) reason
        (some h) now2 true).effects = false ∧
      (endSession ssts sid (some row) reason (some h) now2
        true).effects.getLast? =
        some (Effect.saveTranscript sid h)) := by
  refine ⟨?_, ?_, ?_, ?_⟩
  · intro ctx1 h1
    unfold handleDisconnect at h1 ⊢
    rw [hctx] at h1
    rw [hctx]
    rw [mapGet_mapSet_self] at h1
    injection h1 with h1e
    subst h1e
    unfold graceExpiryFire
    cases dbStatus with
    | none =>
      simp [hne, flushCount, flushPrecedesPersist, flushSeen,
        isFlush, isTerminalPersist]
    | some s =>
      by_cases hsp : s = SessStatus.active ∨ s = SessStatus.paused <;>
        simp [hne, hsp, flushCount, flushPrecedesPersist, flushSeen,
          isFlush, isTerminalPersist]
  · intro p ga so
    unfold handleAudioChunk
    split
    · simp [flushPrecedesPersist, flushSeen, isTerminalPersist]
    · next c heq =>
      rw [hctx] at heq
      injection heq with hce
      subst hce
      by_cases hrate : 50 ≤ (List.filter
          (fun t => decide (nowMs - t < 1000))
          ctx.chunkTimestamps).length <;>
        split_ifs <;>
          simp [hrate, hne, flushPrecedesPersist, flushSeen, isFlush,
            isTerminalPersist]
  · intro ctx0
    unfold autoEndFire
    split
    · simp [flushPrecedesPersist, flushSeen]
    · next c heq =>
      rw [hctx] at heq
      injection heq with hce
      subst hce
      split_ifs <;>
        simp [hne, flushPrecedesPersist, flushSeen, isFlush,
          isTerminalPersist]
  · intro ssts sid row reason h now2 hh
    cases reason with
    | none =>
      simp [endSession, hh, flushCount, flushPrecedesPersist,
        flushSeen, isFlush, isTerminalPersist]
    | some r =>
      cases r <;>
        simp [endSession, hh, flushCount, flushPrecedesPersist,
          flushSeen, isFlush, isTerminalPersist]

/-- C4 amended-theorem witness: a concrete disconnect at t = 50 s with
a non-empty log followed by grace expiry over a database row still
`'active'` flushes exactly once, before the `interrupted` persist. -/
theorem transcript_flush_ordering_witness :
    flushCount ((handleDisconnect
        { sessions := [("c0", ctxH)], idleTimeouts := [] }
        "c0" 50000 5).2 ++
      (graceExpiryFire (handleDisconnect
        { sessions := [("c0", ctxH)], idleTimeouts := [] }
        "c0" 50000 5).1
        { ctxH with
          timerHandles := [], pauseGeminiCloseTimer := none,
          elapsedSeconds := 50, status := SessStatus.gracePeriod,
          disconnectTimer := some 5 } "c0" (some .active)).2) = 1 ∧
    flushPrecedesPersist ((handleDisconnect
        { sessions := [("c0", ctxH)], idleTimeouts := [] }
        "c0" 50000 5).2 ++
      (graceExpiryFire (handleDisconnect
        { sessions := [("c0", ctxH)], idleTimeouts := [] }
        "c0" 50000 5).1
        { ctxH with
          timerHandles := [], pauseGeminiCloseTimer := none,
          elapsedSeconds := 50, status := SessStatus.gracePeriod,
          disconnectTimer := some 5 } "c0" (some .active)).2) = true :=
  (transcript_flush_ordering
    { sessions := [("c0", ctxH)], idleTimeouts := [] }
    "c0" ctxH 50000 5 (some .active) rfl (by decide)).1
    { ctxH with
      timerHandles := [], pauseGeminiCloseTimer := none,
      elapsedSeconds := 50, status := SessStatus.gracePeriod,
      disconnectTimer := some 5 } rfl

set_option maxHeartbeats 4000000 in
/-- C3 — At most one SessionContext per examSessionId: registry
well-formedness (distinct client-id keys, at most one context per
exam-session id) is preserved by every state-mutating handler and
timer callback; a fresh admission while a non-grace-period context for
the id exists (which, by timer/state coherence, has no pending
disconnect timer) is rejected as duplicate-connection with the
registry untouched; and reconnection replaces the old entry rather
than adding a second one — afterwards the id still occurs exactly once
in the registry. -/
theorem registry_single_context_per_session (st : GatewayState)
    (inp : ConnInput) (hwf : RegistryWF st.sessions) :
    RegistryWF (handleConnection st inp).1.sessions ∧
    (∀ cid nowMs tid,
      RegistryWF (handleDisconnect st cid nowMs tid).1.sessions) ∧
    (∀ cid p nowMs ga so,
      RegistryWF (handleAudioChunk st cid p nowMs ga so).1.sessions) ∧
    (∀ cid nowMs ok ptid,
      RegistryWF (handlePauseSession st cid nowMs ok ptid).1.sessions) ∧
    (∀ cid nowMs ga ok,
      RegistryWF (handleResumeSession st cid nowMs ga ok).1.sessions) ∧
    (∀ ctx0 cid, RegistryWF (autoEndFire st ctx0 cid).1.sessions) ∧
    (∀ ctx0 cid dbs,
      RegistryWF (graceExpiryFire st ctx0 cid dbs).1.sessions) ∧
    (∀ ctx0 cid conn,
      RegistryWF (pauseExpiryFire st ctx0 cid conn).1.sessions) ∧
    (timerCoherent st.sessions →
      ∀ sid oldCid ctx s,
        inp.sessionId = some sid → inp.hasToken = true →
        inp.authStudent = some s →
        findSessionBySessionId st.sessions sid = some (oldCid, ctx) →
        ctx.status ≠ .gracePeriod →
        handleConnection st inp =
          (st, .rejected .duplicateConnection,
           rejectEffects inp.clientId .duplicateConnection)) ∧
    (∀ sid oldCid ctx s,
      inp.sessionId = some sid → inp.hasToken = true →
      inp.authStudent = some s →
      findSessionBySessionId st.sessions sid = some (oldCid, ctx) →
      ctx.disconnectTimer.isSome = true → ctx.studentId = s →
      (sessionIds (handleConnection st inp).1.sessions).count sid =
        1) := by
  refine ⟨?_, ?_, ?_, ?_, ?_, ?_, ?_, ?_, ?_, ?_⟩
  · -- preservation by handleConnection
    unfold handleConnection
    split
    · exact hwf
    · split
      · exact hwf
      · split
        · exact hwf
        · split
          · -- registry hit: reconnection or duplicate
            rename_i sid studentId oldCid ctx hfind
            split
            · split
              · exact hwf
              · -- reconnection branch
                have hmem := find_mem hfind
                refine wf_mapSet (wf_mapDelete hwf oldCid) ?_
                intro a ha _ hasid
                rcases List.mem_filter.mp ha with ⟨ham, hpred⟩
                have hane : a.1 ≠ oldCid := by simpa using hpred
                have : a = (oldCid, ctx) := sid_unique hwf.2 ham
                  hmem.1 (by simpa using hasid)
                exact hane (by rw [this])
            · exact hwf
          · -- registry miss: fresh admission
            rename_i sid studentId hfind
            split
            · exact hwf
            · split
              · exact hwf
              · split
                · exact hwf
                · split
                  · exact hwf
                  · split
                    · exact hwf
                    · split
                      · exact hwf
                      · split
                        · exact hwf
                        · split
                          · exact hwf
                          · split
                            · exact hwf
                            · exact wf_mapSet_fresh hwf hfind
  · intro cid nowMs tid
    unfold handleDisconnect
    split
    · exact hwf
    · rename_i ctx heq
      exact wf_mapSet_of_get hwf heq rfl
  · intro cid p nowMs ga so
    unfold handleAudioChunk
    split
    · exact hwf
    · rename_i ctx heq
      dsimp only
      repeat' split
      all_goals
        first
          | exact hwf
          | exact wf_mapSet_of_get hwf heq rfl
          | exact wf_mapSet_of_get
              (wf_mapSet_of_get hwf heq rfl)
              (mapGet_mapSet_self _ _ _) rfl
          | exact wf_mapSet_of_get
              (wf_mapSet_of_get
                (wf_mapSet_of_get hwf heq rfl)
                (mapGet_mapSet_self _ _ _) rfl)
              (mapGet_mapSet_self _ _ _) rfl
  · intro cid nowMs ok ptid
    unfold handlePauseSession
    split
    · exact hwf
    · rename_i ctx heq
      dsimp only
      repeat' split
      all_goals
        first
          | exact hwf
          | exact wf_mapSet_of_get hwf heq rfl
  · intro cid nowMs ga ok
    unfold handleResumeSession
    split
    · exact hwf
    · rename_i ctx heq
      dsimp only
      repeat' split
      all_goals
        first
          | exact hwf
          | exact wf_mapSet_of_get hwf heq rfl
  · intro ctx0 cid
    unfold autoEndFire
    split
    · exact hwf
    · split
      · exact hwf
      · exact wf_mapDelete hwf cid
  · intro ctx0 cid dbs
    exact wf_mapDelete hwf cid
  · intro ctx0 cid conn
    unfold pauseExpiryFire
    simp only []
    cases heq : mapGet st.sessions cid with
    | none => exact hwf
    | some cur => exact wf_mapSet_of_get hwf heq rfl
  · intro hco sid oldCid ctx s hsid htok hauth hfind hstatus
    have htimer : ctx.disconnectTimer = none := by
      by_contra hne
      exact hstatus (hco (oldCid, ctx) (find_mem hfind).1 hne)
    unfold handleConnection
    rw [hsid]
    simp only [htok, Bool.not_true, Bool.false_eq_true, if_false,
      ite_false]
    rw [hauth, hfind]
    simp only [htimer, Option.isSome_none, Bool.false_eq_true,
      if_false, ite_false]
    simp
  · intro sid oldCid ctx s hsid htok hauth hfind htimer hown
    have hne : ¬ (ctx.studentId ≠ s) := by simp [hown]
    unfold handleConnection
    rw [hsid]
    simp only [htok, Bool.not_true, Bool.false_eq_true, if_false,
      ite_false]
    rw [hauth, hfind]
    simp only [htimer, if_true, ite_true, if_neg hne]
    set ctx' : SessionContext :=
      { ctx with
        disconnectTimer := none, clientId := inp.clientId,
        status := SessStatus.active,
        lastAudioTimestamp := inp.nowMs } with hctxd
    have hmem := find_mem hfind
    have hwf2 : RegistryWF
        (mapSet (mapDelete st.sessions oldCid) inp.clientId ctx') := by
      refine wf_mapSet (wf_mapDelete hwf oldCid) ?_
      intro a ha _ hasid
      rcases List.mem_filter.mp ha with ⟨ham, hpred⟩
      have hane : a.1 ≠ oldCid := by simpa using hpred
      have : a = (oldCid, ctx) := sid_unique hwf.2 ham hmem.1
        (by simpa [hctxd] using hasid)
      exact hane (by rw [this])
    have hget : mapGet
        (mapSet (mapDelete st.sessions oldCid) inp.clientId ctx')
        inp.clientId = some ctx' := mapGet_mapSet_self _ _ _
    have hin : sid ∈ sessionIds
        (mapSet (mapDelete st.sessions oldCid) inp.clientId ctx') := by
      have : (inp.clientId, ctx') ∈
          mapSet (mapDelete st.sessions oldCid) inp.clientId ctx' :=
        mapGet_mem hget
      have hs : ctx'.sessionId = sid := by simpa using hmem.2
      exact hs ▸ List.mem_map_of_mem (fun e => e.2.sessionId) this
    exact List.count_eq_one_of_mem hwf2.2 hin

/-- C3 witness: admitting into an empty registry keeps it well-formed;
a fresh connection against an existing Active context is rejected as
duplicate with the registry untouched; and reconnecting into a
grace-period context leaves exactly one context for the exam-session
id. -/
theorem registry_single_context_per_session_witness :
    RegistryWF (handleConnection
      { sessions := [], idleTimeouts := [] } connInpT1).1.sessions ∧
    handleConnection
      { sessions := [("c0", baseCtx)], idleTimeouts := [] }
      inpSameOwner =
      ({ sessions := [("c0", baseCtx)], idleTimeouts := [] },
       .rejected .duplicateConnection,
       rejectEffects "c1" .duplicateConnection) ∧
    (sessionIds (handleConnection
      { sessions := [("c0", gpCtxWithTimer)], idleTimeouts := [] }
      inpSameOwner).1.sessions).count "s1" = 1 :=
  ⟨(registry_single_context_per_session
      { sessions := [], idleTimeouts := [] } connInpT1
      (by constructor <;> simp [sessionIds])).1,
   (registry_single_context_per_session
      { sessions := [("c0", baseCtx)], idleTimeouts := [] }
      inpSameOwner
      (by constructor <;> simp [sessionIds])).2.2.2.2.2.2.2.2.1
     (by intro e he hne; simp at he; subst he; exact absurd rfl hne)
     "s1" "c0" baseCtx "stu1" rfl rfl rfl rfl (by decide),
   (registry_single_context_per_session
      { sessions := [("c0", gpCtxWithTimer)], idleTimeouts := [] }
      inpSameOwner
      (by constructor <;> simp [sessionIds])).2.2.2.2.2.2.2.2.2
     "s1" "c0" gpCtxWithTimer "stu1" rfl rfl rfl rfl rfl rfl⟩

end Speaking
